import Mathlib

/-
  Verification of the adaptive multi-source delivery core of dtube-staging.

  The definitions below are shallow embeddings of the JavaScript source:
  numbers are modelled as rationals, JS Map objects as functions into Option
  or as association lists, and JS truthiness quirks (x || d, comparisons with
  undefined) are modelled explicitly where the embedded code relies on them.
-/

namespace DTube

/-! ## Configuration constants (src/config/videoConfig.js and config.js) -/

/-- VIDEO_SETTINGS.PROVIDER_SCORE_DECAY, videoConfig.js line 25. -/
def PROVIDER_SCORE_DECAY : ℚ := 0.95

/-- VIDEO_SETTINGS.MAX_PROVIDER_RETRIES, videoConfig.js line 22. -/
def MAX_PROVIDER_RETRIES : ℕ := 3

/-- The literal success gain 0.1 appearing in VideoController.updateProviderScore
    (src/unnamed/part_002 line 458). -/
def successGain : ℚ := 0.1

/-- VIDEO_SETTINGS.NETWORK.CONCURRENT_CHUNKS, videoConfig.js line 75. -/
def CONCURRENT_CHUNKS : ℕ := 3

/-- VIDEO.BUFFER_CHECK_DELAY in ms, config.js (src/unnamed/part_001). -/
def BUFFER_CHECK_DELAY : ℚ := 1000

/-- VIDEO_SETTINGS.BUFFER_STALL_TIMEOUT in ms, videoConfig.js line 19. -/
def BUFFER_STALL_TIMEOUT : ℚ := 5000

/-- VIDEO_SETTINGS.QUALITY.BUFFER_THRESHOLD_LOW in seconds, videoConfig.js line 84. -/
def BUFFER_THRESHOLD_LOW : ℚ := 5

/-! ## Provider reliability scores (src/unnamed/part_002) -/

/-- Embedding of the JS read `this.providerScores.get(name) || 1.0`
    (part_002 line 453): a missing entry and a stored 0 are both falsy in JS,
    so both read as the default 1.0. -/
def readScoreOr1 : Option ℚ → ℚ
  | some q => if q = 0 then 1 else q
  | none => 1

/-- VideoController.updateProviderScore (src/unnamed/part_002 lines 452-465).
    On success the score moves toward 1 by a 0.1 gain, clipped at 1.0 by
    Math.min; on failure it is multiplied by PROVIDER_SCORE_DECAY. -/
def updateProviderScore (stored : Option ℚ) (success : Bool) : ℚ :=
  let currentScore := readScoreOr1 stored
  if success then min 1 (currentScore + (1 - currentScore) * 0.1)
  else currentScore * PROVIDER_SCORE_DECAY

/-- One outcome report against a score stored in VideoController.providerScores
    (the map always holds the key once initialized, so the stored value is passed
    as `some`). -/
def ctrlScoreStep (s : ℚ) (success : Bool) : ℚ :=
  updateProviderScore (some s) success

/-- The stored score after a sequence of success/failure reports,
    starting from s0 (VideoController.updateProviderScore applied repeatedly). -/
def ctrlScoreAfter (s0 : ℚ) (reports : List Bool) : ℚ :=
  reports.foldl ctrlScoreStep s0

/-- VideoControllerFactory.updateProviderScore (src/unnamed/part_002
    lines 168-185): success sets score to score * 0.8 + 0.2, failure to
    score * 0.8. -/
def factoryScoreStep (s : ℚ) (success : Bool) : ℚ :=
  if success then s * 0.8 + 0.2 else s * 0.8

/-- The factory-cached score after a sequence of success/failure reports. -/
def factoryScoreAfter (s0 : ℚ) (reports : List Bool) : ℚ :=
  reports.foldl factoryScoreStep s0

/-- The combined effect of one outcome report on (score, consecutive-failure
    count) of a provider: the success path is load() lines 359-363 of
    src/unnamed/part_002 (retries reset to 0, then updateProviderScore true);
    the failure path is switchProvider lines 416-420 (updateProviderScore
    false, retries incremented). -/
def reportOutcome (score : ℚ) (retries : ℕ) (success : Bool) : ℚ × ℕ :=
  if success then (updateProviderScore (some score) true, 0)
  else (updateProviderScore (some score) false, retries + 1)

/-! ## Provider selection and switching (src/unnamed/part_002, VideoController) -/

/-- Pointwise update of a JS Map modelled as a function into Option. -/
def mapSet {α : Type} (m : String → Option α) (k : String) (v : α) :
    String → Option α :=
  fun x => if x = k then some v else m x

/-- State of a VideoController relevant to provider selection: the provider
    list, the providerScores map, the providerRetries map, and the index of
    the current provider. -/
structure VCState where
  providers : List String
  scores : String → Option ℚ
  retries : String → Option ℕ
  currentProvider : ℕ

/-- Embedding of the JS filter predicate `providerScores.get(name) >= 0.5`
    in selectBestProvider (part_002 lines 389-391): comparing undefined with
    0.5 is false in JS. -/
def jsGeHalf : Option ℚ → Bool
  | some q => decide ((1/2 : ℚ) ≤ q)
  | none => false

/-- The candidate list of selectBestProvider (part_002 lines 388-404): the
    providers whose score is at least 0.5. The subsequent randomised sort only
    permutes this list, so membership here is exactly eligibility for ranked
    selection. -/
def availableProviders (st : VCState) : List String :=
  st.providers.filter fun name => jsGeHalf (st.scores name)

/-- VideoController.switchProvider (part_002 lines 411-445) restricted to its
    provider bookkeeping: decay the score of the current provider, increment
    its retry count (read with the JS default `get(name) || 0`), and fail
    (the thrown ProviderError is caught and `false` returned) when the old
    retry count has reached MAX_PROVIDER_RETRIES; otherwise the switch to the
    next ranked provider proceeds and `true` is returned. -/
def switchProviderStep (st : VCState) : VCState × Bool :=
  match st.providers[st.currentProvider]? with
  | none => (st, false)
  | some name =>
    let scores2 := mapSet st.scores name (updateProviderScore (st.scores name) false)
    let r := (st.retries name).getD 0
    let retries2 := mapSet st.retries name (r + 1)
    let st2 : VCState := { st with scores := scores2, retries := retries2 }
    if MAX_PROVIDER_RETRIES ≤ r then (st2, false) else (st2, true)

/-- A concrete VideoController state in which provider a has accumulated 4
    consecutive failures (beyond the retry budget of 3) while keeping
    score 0.8. -/
def overBudgetState : VCState where
  providers := ["a", "b"]
  scores := fun n => if n = "a" then some (4/5) else if n = "b" then some (3/5) else none
  retries := fun n => if n = "a" then some 4 else none
  currentProvider := 0

/-! ## Quality adaptation (src/controllers/QualityController.js) -/

/-- A quality tier from VIDEO_SETTINGS.QUALITY.QUALITY_LEVELS: a target
    bitrate and a vertical resolution. -/
structure QualityLevel where
  bitrate : ℚ
  height : ℕ
deriving DecidableEq

/-- VIDEO_SETTINGS.QUALITY.QUALITY_LEVELS, videoConfig.js lines 86-91. -/
def QUALITY_LEVELS : List QualityLevel :=
  [⟨400000, 360⟩, ⟨800000, 480⟩, ⟨1500000, 720⟩, ⟨3000000, 1080⟩]

/-- The comparator `(a, b) => a.bitrate - b.bitrate` passed to the JS sort in
    getRecommendedQuality line 96, as an ordering relation. -/
def levelLe (a b : QualityLevel) : Prop := a.bitrate ≤ b.bitrate

instance : DecidableRel levelLe :=
  fun a b => inferInstanceAs (Decidable (a.bitrate ≤ b.bitrate))

instance : IsTotal QualityLevel levelLe := ⟨fun a b => le_total a.bitrate b.bitrate⟩

instance : IsTrans QualityLevel levelLe := ⟨fun _ _ _ h h2 => le_trans h h2⟩

/-- The ascending-by-bitrate sort `[...this.availableQualities].sort(...)`
    of getRecommendedQuality line 96. -/
def sortLevels (l : List QualityLevel) : List QualityLevel :=
  List.insertionSort levelLe l

/-- Effective bandwidth of getRecommendedQuality lines 99-100: the raw
    estimate discounted by the frame-drop penalty
    `bandwidth * (1 - Math.min(frameDrops / 100, 0.5))`. -/
def effectiveBandwidth (bandwidth : ℚ) (frameDrops : ℕ) : ℚ :=
  bandwidth * (1 - min ((frameDrops : ℚ) / 100) 0.5)

/-- The selection loop of getRecommendedQuality lines 103-111: walk the
    ascending tier list, keeping the last tier whose bitrate is at most the
    threshold, stopping at the first tier above it. -/
def pickByBandwidth (thr : ℚ) (acc : QualityLevel) : List QualityLevel → QualityLevel
  | [] => acc
  | l :: ls => if l.bitrate ≤ thr then pickByBandwidth thr l ls else acc

/-- Placeholder for the JS undefined produced by indexing an empty level
    array; never reached for the nonempty configured table. -/
def defaultLevel : QualityLevel := ⟨0, 0⟩

/-- The JS `levels.indexOf(this.currentQuality)` of line 116: -1 when
    currentQuality is null or not an element. -/
def jsIndexOf (l : List QualityLevel) : Option QualityLevel → ℤ
  | none => -1
  | some q => if q ∈ l then (l.indexOf q : ℤ) else -1

/-- The metrics fields of QualityController read by getRecommendedQuality. -/
structure QCMetrics where
  bandwidth : ℚ
  bufferLevel : ℚ
  frameDrops : ℕ

/-- QualityController.getRecommendedQuality (QualityController.js
    lines 94-123). -/
def getRecommendedQuality (m : QCMetrics) (currentQuality : Option QualityLevel)
    (availableQualities : List QualityLevel) : QualityLevel :=
  let levels := sortLevels availableQualities
  let effBw := effectiveBandwidth m.bandwidth m.frameDrops
  let recommended := pickByBandwidth (effBw * 0.8) (levels.headD defaultLevel) levels
  if m.bufferLevel < BUFFER_THRESHOLD_LOW then
    let currentIndex := jsIndexOf levels currentQuality
    if 0 < currentIndex then levels.getD (currentIndex.toNat - 1) defaultLevel
    else recommended
  else recommended

/-- The read `VIDEO_SETTINGS.QUALITY.MIN_SWITCH_INTERVAL` in evaluateQuality
    line 78: the QUALITY block of videoConfig.js (lines 82-92) defines no such
    field, so the read yields the JS undefined, modelled as `none`. -/
def MIN_SWITCH_INTERVAL : Option ℚ := none

/-- JS `x < y` where y may be undefined: any comparison with undefined is
    false. -/
def jsLtOpt (x : ℚ) : Option ℚ → Bool
  | some y => decide (x < y)
  | none => false

/-- The QualityController state mutated by switchQuality: the active tier and
    the timestamp of the last actual switch (metrics.lastSwitch). -/
structure QCState where
  currentQuality : Option QualityLevel
  lastSwitch : ℚ
deriving DecidableEq

/-- QualityController.getCurrentQualityLevel (lines 162-164). -/
def getCurrentQualityLevel (st : QCState) (availableQualities : List QualityLevel) :
    QualityLevel :=
  st.currentQuality.getD (availableQualities.headD defaultLevel)

/-- QualityController.switchQuality (lines 129-156) restricted to its state
    change: record the new tier and stamp lastSwitch with the current time. -/
def switchQuality (now : ℚ) (level : QualityLevel) (st : QCState) : QCState :=
  { st with currentQuality := some level, lastSwitch := now }

/-- QualityController.evaluateQuality (lines 76-88). Returns the new state and
    whether an actual tier switch happened. The rate-limit guard is
    `Date.now() - lastSwitch < MIN_SWITCH_INTERVAL` with the missing config
    field, and the switch fires when the recommendation differs from the
    current level. -/
def evaluateQuality (now : ℚ) (m : QCMetrics) (availableQualities : List QualityLevel)
    (st : QCState) : QCState × Bool :=
  if jsLtOpt (now - st.lastSwitch) MIN_SWITCH_INTERVAL then (st, false)
  else
    let currentLevel := getCurrentQualityLevel st availableQualities
    let recommendedLevel := getRecommendedQuality m st.currentQuality availableQualities
    if recommendedLevel ≠ currentLevel then (switchQuality now recommendedLevel st, true)
    else (st, false)

/-! ## Buffer status checks (src/unnamed/part_005, VideoController) -/

/-- The playback state read by checkBufferStatus: the buffered ranges of the
    media element, the playback cursor, and the isSeeking flag maintained by
    the seeking/seeked listeners of setupEventListeners (part_005
    lines 42-58). -/
structure PlaybackState where
  buffered : List (ℚ × ℚ)
  currentTime : ℚ
  isSeeking : Bool

/-- The scan loop of checkBufferStatus (part_005 lines 266-271) with its
    early break: whether the cursor lies inside some buffered range. -/
def cursorInBuffered (t : ℚ) : List (ℚ × ℚ) → Bool
  | [] => false
  | r :: rs => if r.1 ≤ t ∧ t ≤ r.2 then true else cursorInBuffered t rs

/-- VideoController.checkBufferStatus (part_005 lines 259-282): whether this
    check emits the buffer-stalled signal. An empty buffered list returns
    early without emitting; otherwise the signal fires exactly when the
    cursor is inside no range and no seek is active. -/
def checkBufferStatus (s : PlaybackState) : Bool :=
  if s.buffered.length = 0 then false
  else if cursorInBuffered s.currentTime s.buffered then false
  else !s.isSeeking

/-- Number of stall signals emitted by n periodic buffer checks (the
    setInterval of setupBufferCheck, part_005 lines 85-89) while the playback
    state stays unchanged. -/
def stallSignalCount (s : PlaybackState) : ℕ → ℕ
  | 0 => 0
  | n + 1 => stallSignalCount s n + (if checkBufferStatus s then 1 else 0)

/-! ## Chunk loading concurrency (BufferManager, src/utils/EventEmitter.js) -/

/-- The slot bookkeeping of a BufferManager: loadingChunks and activeRequests
    (JS Sets and Maps of chunk start offsets, kept duplicate-free by the
    membership guard) and the loaded chunk table with payload sizes. -/
structure BufferManagerState where
  loadingChunks : List ℕ
  activeRequests : List ℕ
  chunks : List (ℕ × ℕ)
deriving DecidableEq

/-- BufferManager.loadNextChunk (EventEmitter.js lines 278-329) restricted to
    its slot bookkeeping: returns the new state and whether a fetch was
    started. The JS guard `!nextChunkStart` treats chunk start 0 as falsy;
    the priority flag only selects the fetch priority header and does not
    affect the slot discipline. -/
def loadNextChunk (next : ℕ) (_highPriority : Bool) (s : BufferManagerState) :
    BufferManagerState × Bool :=
  if CONCURRENT_CHUNKS ≤ s.loadingChunks.length then (s, false)
  else if next = 0 ∨ next ∈ s.loadingChunks then (s, false)
  else
    ({ s with loadingChunks := next :: s.loadingChunks,
              activeRequests := next :: s.activeRequests }, true)

/-- Successful completion of the fetch for a chunk (lines 304-312): record the
    payload and free the slot. -/
def completeChunk (start size : ℕ) (s : BufferManagerState) : BufferManagerState :=
  { s with chunks := s.chunks ++ [(start, size)],
           loadingChunks := s.loadingChunks.filter (· ≠ start),
           activeRequests := s.activeRequests.filter (· ≠ start) }

/-- Fetch failure for a chunk (lines 314-328): free the slot and emit the
    chunk error. -/
def failChunk (start : ℕ) (s : BufferManagerState) : BufferManagerState :=
  { s with loadingChunks := s.loadingChunks.filter (· ≠ start),
           activeRequests := s.activeRequests.filter (· ≠ start) }

/-- BufferManager.handleSeeking (lines 236-240): abort all pending requests
    and clear the loading set; the loadNextChunk call it then makes is a
    separate start operation. -/
def handleSeeking (s : BufferManagerState) : BufferManagerState :=
  { s with activeRequests := [], loadingChunks := [] }

/-- The events that mutate the slot bookkeeping of a BufferManager. -/
inductive BufferOp where
  | start (next : ℕ) (highPriority : Bool)
  | complete (start size : ℕ)
  | fail (start : ℕ)
  | seek

/-- One slot-bookkeeping step. -/
def bufferStep (s : BufferManagerState) : BufferOp → BufferManagerState
  | .start next hp => (loadNextChunk next hp s).1
  | .complete st sz => completeChunk st sz s
  | .fail st => failChunk st s
  | .seek => handleSeeking s

/-- A whole sequence of slot-bookkeeping events. -/
def runBufferOps (s : BufferManagerState) (ops : List BufferOp) : BufferManagerState :=
  ops.foldl bufferStep s

/-! ## Disposal (src/unnamed/part_005 lines 306-312, part_002 lines 633-644) -/

/-- The resources held by the part_005 VideoController: the buffer check
    interval timer and the object URL stored in video.src. -/
structure VideoControllerState5 where
  bufferCheckActive : Bool
  src : String
deriving DecidableEq

/-- Result of a part_005 dispose call: the new state, the object URLs revoked
    by this call, and whether an active interval timer was cancelled. -/
structure DisposeOutcome where
  state : VideoControllerState5
  revokedUrls : List String
  timerCancelled : Bool
deriving DecidableEq

/-- VideoController.dispose (part_005 lines 306-312): clearInterval on the
    buffer check (a no-op when already cleared), revoke the object URL only
    when src is nonempty (the empty string is falsy in the JS guard), then
    set src to the empty string. Every operation is guarded or a no-op, so
    the embedded function is total: dispose never throws. -/
def dispose5 (s : VideoControllerState5) : DisposeOutcome :=
  { state := { bufferCheckActive := false, src := "" },
    revokedUrls := if s.src = "" then [] else [s.src],
    timerCancelled := s.bufferCheckActive }

/-- BufferManager.dispose (EventEmitter.js lines 401-408): abort every active
    request, clear chunks and loadingChunks, detach listeners. Returns the
    new state and the ids of the requests aborted by this call. -/
def bufferManagerDispose (s : BufferManagerState) : BufferManagerState × List ℕ :=
  (⟨[], [], []⟩, s.activeRequests)

/-- The state cleared by the part_002 VideoController.dispose. -/
structure ControllerState2 where
  bufferManager : BufferManagerState
  providers : List String
  scores : String → Option ℚ
  retries : String → Option ℕ
  currentCid : Option String

/-- VideoController.dispose (part_002 lines 633-644): dispose the buffer
    manager, detach listeners, clear the provider list, the score and retry
    maps and the current cid. Returns the new state and the aborted request
    ids, the only resources released on this path. -/
def controllerDispose2 (s : ControllerState2) : ControllerState2 × List ℕ :=
  let bm := bufferManagerDispose s.bufferManager
  ({ bufferManager := bm.1, providers := [], scores := fun _ => none,
     retries := fun _ => none, currentCid := none }, bm.2)

/-! ## Seeking (src/unnamed/part_005) -/

/-- VideoController.seekBy (part_005 lines 195-200): the time passed to
    seekTo is Math.max(0, Math.min(duration, currentTime + delta)). -/
def seekByTarget (duration currentTime delta : ℚ) : ℚ :=
  max 0 (min duration (currentTime + delta))

end DTube

namespace DTube

/-! ## Theorems for provider scores -/

theorem ctrlScoreStep_bounds (s : ℚ) (b : Bool) (h0 : 0 ≤ s) (h1 : s ≤ 1) :
    0 ≤ ctrlScoreStep s b ∧ ctrlScoreStep s b ≤ 1 := by
  unfold ctrlScoreStep updateProviderScore readScoreOr1 PROVIDER_SCORE_DECAY
  cases b with
  | false =>
    simp only [if_neg, Bool.false_eq_true, if_false]
    by_cases hz : s = 0
    · subst hz; norm_num
    · rw [if_neg hz]
      constructor
      · positivity
      · nlinarith
  | true =>
    simp only [if_pos]
    by_cases hz : s = 0
    · rw [if_pos hz]
      norm_num
    · rw [if_neg hz]
      constructor
      · refine le_min (by norm_num) ?_
        nlinarith
      · exact min_le_left _ _

theorem factoryScoreStep_bounds (s : ℚ) (b : Bool) (h0 : 0 ≤ s) (h1 : s ≤ 1) :
    0 ≤ factoryScoreStep s b ∧ factoryScoreStep s b ≤ 1 := by
  unfold factoryScoreStep
  cases b <;> simp <;> constructor <;> nlinarith

theorem ctrlScoreAfter_bounds (s0 : ℚ) (reports : List Bool)
    (h0 : 0 ≤ s0) (h1 : s0 ≤ 1) :
    0 ≤ ctrlScoreAfter s0 reports ∧ ctrlScoreAfter s0 reports ≤ 1 := by
  induction reports generalizing s0 with
  | nil => exact ⟨h0, h1⟩
  | cons b bs ih =>
    have hb := ctrlScoreStep_bounds s0 b h0 h1
    exact ih (ctrlScoreStep s0 b) hb.1 hb.2

theorem factoryScoreAfter_bounds (s0 : ℚ) (reports : List Bool)
    (h0 : 0 ≤ s0) (h1 : s0 ≤ 1) :
    0 ≤ factoryScoreAfter s0 reports ∧ factoryScoreAfter s0 reports ≤ 1 := by
  induction reports generalizing s0 with
  | nil => exact ⟨h0, h1⟩
  | cons b bs ih =>
    have hb := factoryScoreStep_bounds s0 b h0 h1
    exact ih (factoryScoreStep s0 b) hb.1 hb.2

/-- C1: for every sequence of success/failure outcome reports applied to a
    provider whose score starts in [0,1], the reliability score stays in [0,1]
    after every update, for both score updaters in the source
    (VideoController.updateProviderScore and
    VideoControllerFactory.updateProviderScore). -/
theorem providerScore_unit_interval (s0 : ℚ) (reports : List Bool)
    (h0 : 0 ≤ s0) (h1 : s0 ≤ 1) :
    (0 ≤ ctrlScoreAfter s0 reports ∧ ctrlScoreAfter s0 reports ≤ 1) ∧
    (0 ≤ factoryScoreAfter s0 reports ∧ factoryScoreAfter s0 reports ≤ 1) :=
  ⟨ctrlScoreAfter_bounds s0 reports h0 h1, factoryScoreAfter_bounds s0 reports h0 h1⟩

/-- Witness for providerScore_unit_interval at score 1/2 and a concrete
    report sequence. -/
theorem providerScore_unit_interval_witness :
    ((0 : ℚ) ≤ 1/2 ∧ (1/2 : ℚ) ≤ 1) ∧
    ((0 ≤ ctrlScoreAfter (1/2) [true, false, false] ∧
        ctrlScoreAfter (1/2) [true, false, false] ≤ 1) ∧
      (0 ≤ factoryScoreAfter (1/2) [true, false, false] ∧
        factoryScoreAfter (1/2) [true, false, false] ≤ 1)) :=
  ⟨⟨by norm_num, by norm_num⟩,
    providerScore_unit_interval (1/2) [true, false, false] (by norm_num) (by norm_num)⟩

/-- C2: an outcome report with score in (0,1] updates the score by exactly
    score + (1 - score) * successGain on success (gain 0.1, inside the 0.1-0.2
    range) and resets the consecutive-failure count to 0, and by exactly
    score * PROVIDER_SCORE_DECAY on failure (decay 0.95, inside the 0.8-0.95
    range) while incrementing the consecutive-failure count. -/
theorem reportOutcome_spec (s : ℚ) (r : ℕ) (h0 : 0 < s) (h1 : s ≤ 1) :
    reportOutcome s r true = (s + (1 - s) * successGain, 0) ∧
    reportOutcome s r false = (s * PROVIDER_SCORE_DECAY, r + 1) ∧
    (0.1 : ℚ) ≤ successGain ∧ successGain ≤ 0.2 ∧
    (0.8 : ℚ) ≤ PROVIDER_SCORE_DECAY ∧ PROVIDER_SCORE_DECAY ≤ 0.95 := by
  have hz : s ≠ 0 := ne_of_gt h0
  refine ⟨?_, ?_, ?_, ?_, ?_, ?_⟩
  · unfold reportOutcome updateProviderScore readScoreOr1 successGain
    simp only [if_pos, if_neg hz]
    have : s + (1 - s) * (0.1 : ℚ) ≤ 1 := by nlinarith
    rw [min_eq_right this]
  · unfold reportOutcome updateProviderScore readScoreOr1
    simp [if_neg hz]
  · unfold successGain; norm_num
  · unfold successGain; norm_num
  · unfold PROVIDER_SCORE_DECAY; norm_num
  · unfold PROVIDER_SCORE_DECAY; norm_num

/-- Witness for reportOutcome_spec at score 1/2 and retry count 2. -/
theorem reportOutcome_spec_witness :
    ((0 : ℚ) < 1/2 ∧ (1/2 : ℚ) ≤ 1) ∧
    (reportOutcome (1/2) 2 true = (1/2 + (1 - 1/2) * successGain, 0) ∧
      reportOutcome (1/2) 2 false = (1/2 * PROVIDER_SCORE_DECAY, 2 + 1) ∧
      (0.1 : ℚ) ≤ successGain ∧ successGain ≤ 0.2 ∧
      (0.8 : ℚ) ≤ PROVIDER_SCORE_DECAY ∧ PROVIDER_SCORE_DECAY ≤ 0.95) :=
  ⟨⟨by norm_num, by norm_num⟩, reportOutcome_spec (1/2) 2 (by norm_num) (by norm_num)⟩

/-- C3 counterexample: provider a has 4 consecutive failures, strictly more
    than the retry budget MAX_PROVIDER_RETRIES = 3, yet it is still a member
    of the ranked-selection candidate list, because selection filters only on
    score and the source has no cooldown state at all. -/
theorem providerCooldown_counterexample :
    MAX_PROVIDER_RETRIES < (overBudgetState.retries "a").getD 0 ∧
    "a" ∈ availableProviders overBudgetState := by
  constructor
  · decide
  · have h : availableProviders overBudgetState = ["a", "b"] := by
      simp [availableProviders, overBudgetState, jsGeHalf,
        List.filter_cons, List.filter_nil]
      norm_num
    rw [h]
    exact List.mem_cons_self _ _

/-- C3 amended: there is no cooldown window. When the stored retry count of
    the current provider has reached MAX_PROVIDER_RETRIES, switchProvider
    still decays the score and increments the count but reports failure
    instead of switching; and the ranked-selection candidate list is entirely
    independent of the retry counts (it filters on score alone). -/
theorem switchProvider_retryBudget (st : VCState) (name : String) (r : ℕ)
    (hname : st.providers[st.currentProvider]? = some name)
    (hr : (st.retries name).getD 0 = r)
    (hbudget : MAX_PROVIDER_RETRIES ≤ r) :
    (switchProviderStep st).2 = false ∧
    (switchProviderStep st).1.scores name =
      some (readScoreOr1 (st.scores name) * PROVIDER_SCORE_DECAY) ∧
    (switchProviderStep st).1.retries name = some (r + 1) ∧
    ∀ rt, availableProviders { st with retries := rt } = availableProviders st := by
  unfold switchProviderStep
  rw [hname]
  refine ⟨?_, ?_, ?_, fun rt => rfl⟩
  · simp only [hr, if_pos hbudget]
  · simp only [hr, if_pos hbudget, mapSet, updateProviderScore]
    simp
  · simp only [hr, if_pos hbudget, mapSet]
    simp

/-- Witness for switchProvider_retryBudget at the concrete over-budget state. -/
theorem switchProvider_retryBudget_witness :
    (overBudgetState.providers[overBudgetState.currentProvider]? = some "a" ∧
      (overBudgetState.retries "a").getD 0 = 4 ∧ MAX_PROVIDER_RETRIES ≤ 4) ∧
    ((switchProviderStep overBudgetState).2 = false ∧
      (switchProviderStep overBudgetState).1.scores "a" =
        some (readScoreOr1 (overBudgetState.scores "a") * PROVIDER_SCORE_DECAY) ∧
      (switchProviderStep overBudgetState).1.retries "a" = some (4 + 1) ∧
      ∀ rt, availableProviders { overBudgetState with retries := rt } =
        availableProviders overBudgetState) :=
  ⟨⟨by decide, by decide, by decide⟩,
    switchProvider_retryBudget overBudgetState "a" 4 (by decide) (by decide) (by decide)⟩

/-- C4: the rate-limit guard of evaluateQuality compares the elapsed time with
    the missing config field MIN_SWITCH_INTERVAL, which is always false in JS,
    so tier switches are never rate-limited. Concretely: after an actual
    switch at t = 10000 ms, an evaluation at t = 10050 ms performs an upgrade
    switch, and a second evaluation at t = 10100 ms performs another upgrade
    switch, both while buffer health is not Low (bufferLevel 10 is at least
    BUFFER_THRESHOLD_LOW) and both within 5000 ms of the previous actual
    switch. -/
theorem qualityRateLimit_bug :
    ((10050 : ℚ) - 10000 < 5000 ∧ (10100 : ℚ) - 10050 < 5000) ∧
    BUFFER_THRESHOLD_LOW ≤ (10 : ℚ) ∧
    evaluateQuality 10050 ⟨1000000, 10, 0⟩ QUALITY_LEVELS ⟨some ⟨400000, 360⟩, 10000⟩
      = (⟨some ⟨800000, 480⟩, 10050⟩, true) ∧
    evaluateQuality 10100 ⟨10000000, 10, 0⟩ QUALITY_LEVELS ⟨some ⟨800000, 480⟩, 10050⟩
      = (⟨some ⟨3000000, 1080⟩, 10100⟩, true) := by
  refine ⟨⟨by norm_num, by norm_num⟩, by norm_num [BUFFER_THRESHOLD_LOW], ?_, ?_⟩ <;>
    norm_num [evaluateQuality, jsLtOpt, MIN_SWITCH_INTERVAL, getCurrentQualityLevel,
      switchQuality, getRecommendedQuality, sortLevels, QUALITY_LEVELS,
      List.insertionSort, List.orderedInsert, levelLe, effectiveBandwidth,
      pickByBandwidth, jsIndexOf, BUFFER_THRESHOLD_LOW, defaultLevel,
      List.headD, List.indexOf, List.findIdx_cons, min_def, QualityLevel.mk.injEq]

/-- C5 counterexample: with buffer health Low (bufferLevel 0, below the low
    threshold 5) and the currently active tier being the lowest of the table
    (index 0 in the sorted tier list), getRecommendedQuality does not return a
    tier one step below the active tier: it returns the top 3 Mbps tier, an
    upgrade driven by the bandwidth estimate. -/
theorem lowBufferDowngrade_counterexample :
    (0 : ℚ) < BUFFER_THRESHOLD_LOW ∧
    jsIndexOf (sortLevels QUALITY_LEVELS) (some ⟨400000, 360⟩) = 0 ∧
    getRecommendedQuality ⟨10000000, 0, 0⟩ (some ⟨400000, 360⟩) QUALITY_LEVELS
      = ⟨3000000, 1080⟩ := by
  refine ⟨by norm_num [BUFFER_THRESHOLD_LOW], ?_, ?_⟩ <;>
    norm_num [getRecommendedQuality, sortLevels, QUALITY_LEVELS, List.insertionSort,
      List.orderedInsert, levelLe, effectiveBandwidth, pickByBandwidth, jsIndexOf,
      BUFFER_THRESHOLD_LOW, defaultLevel, List.headD, List.indexOf,
      List.findIdx_cons, min_def, QualityLevel.mk.injEq]

theorem sortLevels_sorted (l : List QualityLevel) :
    (sortLevels l).Pairwise levelLe :=
  List.sorted_insertionSort levelLe l

theorem pickByBandwidth_spec (thr : ℚ) (ls : List QualityLevel) (acc : QualityLevel)
    (hs : ls.Pairwise levelLe) :
    pickByBandwidth thr acc ls ∈ acc :: ls ∧
    ((pickByBandwidth thr acc ls).bitrate ≤ thr ∨ pickByBandwidth thr acc ls = acc) ∧
    ∀ t ∈ ls, t.bitrate ≤ thr → t.bitrate ≤ (pickByBandwidth thr acc ls).bitrate := by
  induction ls generalizing acc with
  | nil =>
    refine ⟨List.mem_cons_self _ _, Or.inr rfl, ?_⟩
    intro t ht
    exact absurd ht (List.not_mem_nil t)
  | cons l ls ih =>
    rw [List.pairwise_cons] at hs
    obtain ⟨hl, hp⟩ := hs
    by_cases hle : l.bitrate ≤ thr
    · have hrec := ih l hp
      have hpick : pickByBandwidth thr acc (l :: ls) = pickByBandwidth thr l ls := by
        simp only [pickByBandwidth, if_pos hle]
      rw [hpick]
      refine ⟨List.mem_cons_of_mem acc hrec.1, ?_, ?_⟩
      · left
        rcases hrec.2.1 with h | h
        · exact h
        · rw [h]; exact hle
      · intro t ht htt
        rcases List.mem_cons.mp ht with rfl | hm
        · rcases List.mem_cons.mp hrec.1 with he | hmem
          · rw [he]
          · exact hl _ hmem
        · exact hrec.2.2 t hm htt
    · have hpick : pickByBandwidth thr acc (l :: ls) = acc := by
        simp only [pickByBandwidth, if_neg hle]
      rw [hpick]
      refine ⟨List.mem_cons_self _ _, Or.inr rfl, ?_⟩
      intro t ht htt
      rcases List.mem_cons.mp ht with rfl | hm
      · exact absurd htt hle
      · exact absurd htt fun hc => hle (le_trans (hl t hm) hc)

/-- C5 amended: over the sorted tier table, when buffer health is Low and the
    active tier sits at a position strictly above the lowest, the
    recommendation is the tier one step below; in every other case (buffer not
    Low, or active tier lowest or unset) the recommendation is the
    bandwidth-based pick, which is a member of the table, is below the 80
    percent threshold unless no tier qualifies (then it is the lowest tier),
    and dominates every qualifying tier. -/
theorem getRecommendedQuality_amended (m : QCMetrics) (cur : Option QualityLevel)
    (avail : List QualityLevel) (hne : avail ≠ []) :
    (m.bufferLevel < BUFFER_THRESHOLD_LOW → 0 < jsIndexOf (sortLevels avail) cur →
      getRecommendedQuality m cur avail =
        (sortLevels avail).getD ((jsIndexOf (sortLevels avail) cur).toNat - 1)
          defaultLevel) ∧
    ((BUFFER_THRESHOLD_LOW ≤ m.bufferLevel ∨ jsIndexOf (sortLevels avail) cur ≤ 0) →
      getRecommendedQuality m cur avail ∈ sortLevels avail ∧
      ((getRecommendedQuality m cur avail).bitrate ≤
          effectiveBandwidth m.bandwidth m.frameDrops * 0.8 ∨
        getRecommendedQuality m cur avail = (sortLevels avail).headD defaultLevel) ∧
      ∀ t ∈ sortLevels avail,
        t.bitrate ≤ effectiveBandwidth m.bandwidth m.frameDrops * 0.8 →
        t.bitrate ≤ (getRecommendedQuality m cur avail).bitrate) := by
  have hsorted : (sortLevels avail).Pairwise levelLe := sortLevels_sorted avail
  have hLne : sortLevels avail ≠ [] := by
    intro h0
    apply hne
    have hlen := (List.perm_insertionSort levelLe avail).length_eq
    simp only [sortLevels] at h0
    rw [h0] at hlen
    exact List.length_eq_zero.mp hlen.symm
  constructor
  · intro hlow hidx
    unfold getRecommendedQuality
    simp only [if_pos hlow, if_pos hidx]
  · intro h
    have hrec : getRecommendedQuality m cur avail =
        pickByBandwidth (effectiveBandwidth m.bandwidth m.frameDrops * 0.8)
          ((sortLevels avail).headD defaultLevel) (sortLevels avail) := by
      unfold getRecommendedQuality
      rcases h with h | h
      · rw [if_neg (not_lt.mpr h)]
      · by_cases hlow : m.bufferLevel < BUFFER_THRESHOLD_LOW
        · rw [if_pos hlow, if_neg (not_lt.mpr h)]
        · rw [if_neg hlow]
    rw [hrec]
    obtain ⟨hmem, hq, hmax⟩ :=
      pickByBandwidth_spec (effectiveBandwidth m.bandwidth m.frameDrops * 0.8)
        (sortLevels avail) ((sortLevels avail).headD defaultLevel) hsorted
    refine ⟨?_, hq, hmax⟩
    rcases List.mem_cons.mp hmem with he | hm
    · rw [he]
      cases hL : sortLevels avail with
      | nil => exact absurd hL hLne
      | cons a as => exact List.mem_cons_self _ _
    · exact hm

/-- Witness for getRecommendedQuality_amended at the configured tier table
    with a healthy buffer and no active tier. -/
theorem getRecommendedQuality_amended_witness :
    QUALITY_LEVELS ≠ [] ∧
    (((⟨2000000, 10, 0⟩ : QCMetrics).bufferLevel < BUFFER_THRESHOLD_LOW →
        0 < jsIndexOf (sortLevels QUALITY_LEVELS) none →
        getRecommendedQuality ⟨2000000, 10, 0⟩ none QUALITY_LEVELS =
          (sortLevels QUALITY_LEVELS).getD
            ((jsIndexOf (sortLevels QUALITY_LEVELS) none).toNat - 1) defaultLevel) ∧
      ((BUFFER_THRESHOLD_LOW ≤ (⟨2000000, 10, 0⟩ : QCMetrics).bufferLevel ∨
          jsIndexOf (sortLevels QUALITY_LEVELS) none ≤ 0) →
        getRecommendedQuality ⟨2000000, 10, 0⟩ none QUALITY_LEVELS ∈
          sortLevels QUALITY_LEVELS ∧
        ((getRecommendedQuality ⟨2000000, 10, 0⟩ none QUALITY_LEVELS).bitrate ≤
            effectiveBandwidth (⟨2000000, 10, 0⟩ : QCMetrics).bandwidth
              (⟨2000000, 10, 0⟩ : QCMetrics).frameDrops * 0.8 ∨
          getRecommendedQuality ⟨2000000, 10, 0⟩ none QUALITY_LEVELS =
            (sortLevels QUALITY_LEVELS).headD defaultLevel) ∧
        ∀ t ∈ sortLevels QUALITY_LEVELS,
          t.bitrate ≤ effectiveBandwidth (⟨2000000, 10, 0⟩ : QCMetrics).bandwidth
            (⟨2000000, 10, 0⟩ : QCMetrics).frameDrops * 0.8 →
          t.bitrate ≤
            (getRecommendedQuality ⟨2000000, 10, 0⟩ none QUALITY_LEVELS).bitrate)) :=
  ⟨by simp [QUALITY_LEVELS],
    getRecommendedQuality_amended ⟨2000000, 10, 0⟩ none QUALITY_LEVELS
      (by simp [QUALITY_LEVELS])⟩

/-- C6 counterexample: with buffered range [10,20], cursor at 5 and no active
    seek, the stalled condition persists; 15 consecutive periodic checks
    (15 s of wall time at the 1000 ms check interval, three times the 5000 ms
    stall timeout) emit 15 stall signals, not exactly one. -/
theorem stallDebounce_counterexample :
    BUFFER_CHECK_DELAY * 15 = 3 * BUFFER_STALL_TIMEOUT ∧
    stallSignalCount ⟨[(10, 20)], 5, false⟩ 15 = 15 ∧
    stallSignalCount ⟨[(10, 20)], 5, false⟩ 15 ≠ 1 := by
  refine ⟨by norm_num [BUFFER_CHECK_DELAY, BUFFER_STALL_TIMEOUT], by decide, by decide⟩

/-- C6 amended: there is no per-episode debouncing and no stall-timeout wait
    on this path. While the buffered list is nonempty, the cursor lies in no
    buffered range and no seek is active, every periodic buffer check emits a
    stall signal, so n consecutive checks emit exactly n signals. -/
theorem stallSignal_every_check (s : PlaybackState) (n : ℕ)
    (hne : s.buffered.length ≠ 0)
    (hout : cursorInBuffered s.currentTime s.buffered = false)
    (hseek : s.isSeeking = false) :
    stallSignalCount s n = n := by
  have hc : checkBufferStatus s = true := by
    simp [checkBufferStatus, hne, hout, hseek]
  induction n with
  | zero => rfl
  | succ n ih => simp [stallSignalCount, hc, ih]

/-- Witness for stallSignal_every_check at a concrete stalled state and three
    checks. -/
theorem stallSignal_every_check_witness :
    ((⟨[(10, 20)], 5, false⟩ : PlaybackState).buffered.length ≠ 0 ∧
      cursorInBuffered (⟨[(10, 20)], 5, false⟩ : PlaybackState).currentTime
        (⟨[(10, 20)], 5, false⟩ : PlaybackState).buffered = false ∧
      (⟨[(10, 20)], 5, false⟩ : PlaybackState).isSeeking = false) ∧
    stallSignalCount ⟨[(10, 20)], 5, false⟩ 3 = 3 :=
  ⟨⟨by decide, by decide, rfl⟩,
    stallSignal_every_check ⟨[(10, 20)], 5, false⟩ 3 (by decide) (by decide) rfl⟩

/-- C7: while an active seek is in progress the buffer status check never
    emits a stall signal, regardless of the buffered ranges and the cursor
    position. -/
theorem no_stall_during_seek (s : PlaybackState) (h : s.isSeeking = true) :
    checkBufferStatus s = false := by
  unfold checkBufferStatus
  split
  · rfl
  · split
    · rfl
    · rw [h]
      rfl

/-- Witness for no_stall_during_seek: a seeking state whose cursor is outside
    the nonempty buffered ranges. -/
theorem no_stall_during_seek_witness :
    (⟨[(0, 1)], 5, true⟩ : PlaybackState).isSeeking = true ∧
    checkBufferStatus ⟨[(0, 1)], 5, true⟩ = false :=
  ⟨rfl, no_stall_during_seek ⟨[(0, 1)], 5, true⟩ rfl⟩

theorem loadNextChunk_full (next : ℕ) (hp : Bool) (s : BufferManagerState)
    (h : CONCURRENT_CHUNKS ≤ s.loadingChunks.length) :
    loadNextChunk next hp s = (s, false) := by
  unfold loadNextChunk
  rw [if_pos h]

theorem bufferStep_bound (s : BufferManagerState) (op : BufferOp)
    (h : s.loadingChunks.length ≤ CONCURRENT_CHUNKS) :
    (bufferStep s op).loadingChunks.length ≤ CONCURRENT_CHUNKS := by
  cases op with
  | start next hp =>
    show (loadNextChunk next hp s).1.loadingChunks.length ≤ CONCURRENT_CHUNKS
    by_cases hfull : CONCURRENT_CHUNKS ≤ s.loadingChunks.length
    · rw [loadNextChunk_full next hp s hfull]
      exact h
    · unfold loadNextChunk
      rw [if_neg hfull]
      by_cases hskip : next = 0 ∨ next ∈ s.loadingChunks
      · rw [if_pos hskip]
        exact h
      · rw [if_neg hskip]
        simp only [List.length_cons]
        unfold CONCURRENT_CHUNKS at hfull ⊢
        omega
  | complete st sz =>
    exact le_trans (List.length_filter_le _ _) h
  | fail st =>
    exact le_trans (List.length_filter_le _ _) h
  | seek =>
    show (handleSeeking s).loadingChunks.length ≤ CONCURRENT_CHUNKS
    simp [handleSeeking, CONCURRENT_CHUNKS]

/-- C8 counterexample: with all 3 slots occupied, a loadNextChunk call for
    chunk 4 returns the state unchanged and starts nothing: the request is
    dropped, not queued. When chunk 1 then completes and frees a slot, the
    state retains no trace of the dropped request, so nothing starts. -/
theorem chunkQueue_counterexample :
    loadNextChunk 4 false ⟨[1, 2, 3], [1, 2, 3], []⟩
      = (⟨[1, 2, 3], [1, 2, 3], []⟩, false) ∧
    (completeChunk 1 100 ⟨[1, 2, 3], [1, 2, 3], []⟩).loadingChunks = [2, 3] ∧
    (completeChunk 1 100 ⟨[1, 2, 3], [1, 2, 3], []⟩).activeRequests = [2, 3] := by
  refine ⟨by decide, by decide, by decide⟩

/-- C8 amended: starting from at most CONCURRENT_CHUNKS in-flight loads,
    every sequence of slot-bookkeeping events keeps the number of in-flight
    loads at most CONCURRENT_CHUNKS; and a loadNextChunk call arriving while
    all slots are occupied returns the state unchanged without starting or
    recording the request. -/
theorem inflight_bounded (s0 : BufferManagerState) (ops : List BufferOp)
    (h : s0.loadingChunks.length ≤ CONCURRENT_CHUNKS) :
    (runBufferOps s0 ops).loadingChunks.length ≤ CONCURRENT_CHUNKS ∧
    ∀ next hp s, CONCURRENT_CHUNKS ≤ s.loadingChunks.length →
      loadNextChunk next hp s = (s, false) := by
  refine ⟨?_, fun next hp s hf => loadNextChunk_full next hp s hf⟩
  induction ops generalizing s0 with
  | nil => exact h
  | cons op ops ih => exact ih (bufferStep s0 op) (bufferStep_bound s0 op h)

/-- Witness for inflight_bounded: from an empty manager, four start events in
    a row never exceed three in-flight loads. -/
theorem inflight_bounded_witness :
    ((⟨[], [], []⟩ : BufferManagerState).loadingChunks.length ≤ CONCURRENT_CHUNKS) ∧
    ((runBufferOps ⟨[], [], []⟩
        [BufferOp.start 1 false, BufferOp.start 2 false,
          BufferOp.start 3 false, BufferOp.start 4 false]).loadingChunks.length ≤
        CONCURRENT_CHUNKS ∧
      ∀ next hp s, CONCURRENT_CHUNKS ≤ s.loadingChunks.length →
        loadNextChunk next hp s = (s, false)) :=
  ⟨by decide,
    inflight_bounded ⟨[], [], []⟩
      [BufferOp.start 1 false, BufferOp.start 2 false,
        BufferOp.start 3 false, BufferOp.start 4 false] (by decide)⟩

/-- C9: dispose is idempotent and a second call releases nothing. For the
    part_005 controller the second dispose revokes no URL, cancels no timer
    and leaves the state fixed; for the part_002 controller with its buffer
    manager the second dispose aborts no request and leaves the state fixed.
    Both embedded dispose functions are total, so neither call can throw. -/
theorem dispose_idempotent (s5 : VideoControllerState5) (s2 : ControllerState2) :
    dispose5 (dispose5 s5).state =
      { state := (dispose5 s5).state, revokedUrls := [], timerCancelled := false } ∧
    controllerDispose2 (controllerDispose2 s2).1 = ((controllerDispose2 s2).1, []) :=
  ⟨rfl, rfl⟩

/-- C10: seekBy targets exactly max(0, min(duration, currentTime + delta)),
    and for a nonnegative duration this target never lies before the start
    nor past the end of the content. -/
theorem seekBy_clamped (duration currentTime delta : ℚ) (hd : 0 ≤ duration) :
    seekByTarget duration currentTime delta
      = max 0 (min duration (currentTime + delta)) ∧
    0 ≤ seekByTarget duration currentTime delta ∧
    seekByTarget duration currentTime delta ≤ duration :=
  ⟨rfl, le_max_left _ _, max_le hd (min_le_left _ _)⟩

/-- Witness for seekBy_clamped: a backward seek far past the start clamps
    into range. -/
theorem seekBy_clamped_witness :
    (0 : ℚ) ≤ 100 ∧
    (seekByTarget 100 50 (-200) = max 0 (min 100 (50 + -200)) ∧
      0 ≤ seekByTarget 100 50 (-200) ∧
      seekByTarget 100 50 (-200) ≤ 100) :=
  ⟨by norm_num, seekBy_clamped 100 50 (-200) (by norm_num)⟩

end DTube
